import Mathlib

/-!
Verification of the configuration resolver and session relay of
src/ssh-connect/ssh_connect.py (class SSHClient).

The Python code is shallowly embedded:
  - os.environ is an association list with first-match lookup;
  - load_dotenv (python-dotenv, default override=False) inserts each file
    entry whose key is not already present in the environment, in file order;
  - Python string truthiness (None and the empty string are falsy) is pyTruthy,
    and the `x or y` idiom on such values is pyOr;
  - str.strip is pyStrip (both ends), str.lower is pyLower (ASCII model);
  - int(str) is pythonInt (optional surrounding whitespace, optional sign,
    digits with single interior underscores, ASCII model);
  - os.path.expanduser is expanduser, parametrised by the home directory;
  - the filesystem seen by the .env search (cwd followed by its ancestors)
    is a list of Dir values;
  - SSHClient.__init__ is sshInit, returning the constructed state or the
    ValueError message, together with the process environment after the
    load_dotenv call (the mutation load_dotenv performs);
  - connect / run / interactive_shell / close act on SSHState, with the
    paramiko client handle modelled as an Option Nat and the remote streams
    passed in as the strings the remote would produce.
-/

namespace SSHConnect

/-- Python string truthiness restricted to Optional[str]: None and "" are falsy. -/
def pyTruthy : Option String → Bool
  | none => false
  | some s => s != ""

/-- The Python idiom `a or b` on Optional[str] values. -/
def pyOr (a b : Option String) : Option String :=
  if pyTruthy a then a else b

/-- Whitespace characters recognised by str.strip and int() (ASCII model). -/
def isPySpace (c : Char) : Bool :=
  c == ' ' || c == '\t' || c == '\n' || c == '\r' || c == '\x0b' || c == '\x0c'

/-- Remove leading and trailing whitespace from a character list. -/
def stripChars (l : List Char) : List Char :=
  ((l.dropWhile isPySpace).reverse.dropWhile isPySpace).reverse

/-- Python str.strip with no argument: removes whitespace from BOTH ends. -/
def pyStrip (s : String) : String :=
  String.mk (stripChars s.data)

/-- Python str.lower (ASCII model, enough for the exit comparison). -/
def pyLower (s : String) : String :=
  String.mk (s.data.map Char.toLower)

/-- The process environment, os.environ: association list, first match wins. -/
abbrev Env := List (String × String)

/-- os.environ lookup / os.getenv. -/
def envGet : Env → String → Option String
  | [], _ => none
  | (k, v) :: rest, key => if k = key then some v else envGet rest key

/-- load_dotenv with the default override=False: walk the file entries in
order and insert each one whose key the environment does not already have;
keys already present keep their current value. -/
def loadDotenv : List (String × String) → Env → Env
  | [], e => e
  | kv :: rest, e =>
    loadDotenv rest (if (envGet e kv.1).isSome then e else e ++ [kv])

/-- A directory as seen by the .env search: whether it holds a .env file,
and the key=value entries of that file. -/
structure Dir where
  hasDotenv : Bool
  dotenvEntries : List (String × String)

/-- Lines 40-44: walk [Path.cwd()] + parents and load the first .env found. -/
def findDotenv : List Dir → Option (List (String × String))
  | [] => none
  | d :: rest => if d.hasDotenv then some d.dotenvEntries else findDotenv rest

/-- os.path.expanduser, parametrised by the home directory: a path that is
the tilde alone, or starts with tilde slash, has the tilde replaced by home;
anything else is returned unchanged (the tilde-user form is not modelled). -/
def expanduser (home : String) (p : String) : String :=
  match p.data with
  | ['~'] => home
  | '~' :: '/' :: rest => home ++ String.mk ('/' :: rest)
  | _ => p

/-- Value of an ASCII digit string (underscores already removed). -/
def digitsToNat (l : List Char) : Nat :=
  l.foldl (fun acc c => acc * 10 + (c.toNat - 48)) 0

/-- After the first digit of an int() literal: digits with single interior
underscores, each underscore followed by a digit. -/
def pyDigitsTail : List Char → Bool
  | [] => true
  | ['_'] => false
  | '_' :: c :: rest => c.isDigit && pyDigitsTail rest
  | c :: rest => c.isDigit && pyDigitsTail rest

/-- The digit part of an int() literal: nonempty, starts with a digit. -/
def pyDigitsBody : List Char → Bool
  | [] => false
  | c :: rest => c.isDigit && pyDigitsTail rest

/-- Python int(str): strip surrounding whitespace, accept one optional sign,
then a digit group; raises ValueError (here: none) otherwise. -/
def pythonInt (s : String) : Option Int :=
  let t := ((s.data.dropWhile isPySpace).reverse.dropWhile isPySpace).reverse
  match t with
  | '+' :: rest =>
    if pyDigitsBody rest then some (digitsToNat (rest.filter (fun c => c != '_')) : Int)
    else none
  | '-' :: rest =>
    if pyDigitsBody rest then some (-(digitsToNat (rest.filter (fun c => c != '_')) : Int))
    else none
  | _ =>
    if pyDigitsBody t then some (digitsToNat (t.filter (fun c => c != '_')) : Int)
    else none

/-- Spec-side comparison definition, following the words of the spec only:
parse as an unsigned integer, that is a nonempty string of decimal digits. -/
def specUnsignedIntParse (s : String) : Option Nat :=
  if !s.data.isEmpty && s.data.all Char.isDigit then some (digitsToNat s.data) else none

/-- The constructor arguments of SSHClient.__init__. The env_file argument
carries the entries of the named settings file (empty when the file does not
exist, matching load_dotenv on a missing path). -/
structure InitArgs where
  host : Option String
  user : Option String
  password : Option String
  key_path : Option String
  port : Option Int
  env_file : Option (List (String × String))
deriving DecidableEq

/-- The state of an SSHClient object: the five resolved attributes plus the
paramiko client handle _client (a bare id here, None before connect). -/
structure SSHState where
  host : Option String
  user : Option String
  password : Option String
  key_path : Option String
  port : Int
  client : Option Nat
deriving DecidableEq

/-- Lines 36-44: the environment after the load_dotenv call, either from the
explicit env_file or from the first .env found in cwd and its ancestors. -/
def loadedEnv (a : InitArgs) (cwdChain : List Dir) (env : Env) : Env :=
  match a.env_file with
  | some entries => loadDotenv entries env
  | none =>
    match findDotenv cwdChain with
    | some entries => loadDotenv entries env
    | none => env

/-- Lines 47-50: one credential field, `override or os.getenv(key)`. -/
def resolveField (ov : Option String) (key : String) (env1 : Env) : Option String :=
  pyOr ov (envGet env1 key)

/-- Error message of int() on a bad literal. -/
def portErrMsg (s : String) : String :=
  "invalid literal for int() with base 10: " ++ s

/-- Line 51, environment side: int(os.getenv("SSH_PORT", "22")). -/
def parsePortEnv (env1 : Env) : Except String Int :=
  let s := (envGet env1 "SSH_PORT").getD "22"
  match pythonInt s with
  | some n => Except.ok n
  | none => Except.error (portErrMsg s)

/-- Line 51: `port or int(os.getenv("SSH_PORT", "22"))`; an integer override
is used when truthy (nonzero), otherwise the environment value is parsed. -/
def resolvePort (ov : Option Int) (env1 : Env) : Except String Int :=
  match ov with
  | some p => if p != 0 then Except.ok p else parsePortEnv env1
  | none => parsePortEnv env1

/-- Line 55 message. -/
def hostErrMsg : String := "SSH_HOST not set in .env or passed as argument"

/-- Line 57 message. -/
def userErrMsg : String := "SSH_USER not set in .env or passed as argument"

/-- Line 59 message. -/
def authErrMsg : String := "SSH_PASSWORD or SSH_KEY_PATH required in .env or as argument"

/-- SSHClient.__init__ (lines 26-65): load the settings file into the
environment, resolve the five fields, parse the port, validate, expand the
key path. Returns the constructed state or the ValueError message, together
with the process environment as the call leaves it. -/
def sshInit (a : InitArgs) (cwdChain : List Dir) (env : Env) (home : String) :
    Except String SSHState × Env :=
  let env1 := loadedEnv a cwdChain env
  let host := resolveField a.host "SSH_HOST" env1
  let user := resolveField a.user "SSH_USER" env1
  let password := resolveField a.password "SSH_PASSWORD" env1
  let kp := resolveField a.key_path "SSH_KEY_PATH" env1
  match resolvePort a.port env1 with
  | Except.error e => (Except.error e, env1)
  | Except.ok port =>
    if !pyTruthy host then (Except.error hostErrMsg, env1)
    else if !pyTruthy user then (Except.error userErrMsg, env1)
    else if !pyTruthy password && !pyTruthy kp then (Except.error authErrMsg, env1)
    else
      let kp2 := if pyTruthy kp then kp.map (expanduser home) else kp
      (Except.ok { host := host, user := user, password := password,
                   key_path := kp2, port := port, client := none }, env1)

/-- The authentication part of the connect keyword arguments (lines 78-81):
either key_filename or password, never both. -/
inductive AuthChoice where
  | keyFile (path : String)
  | pw (secret : Option String)
deriving DecidableEq

/-- The keyword arguments built by SSHClient.connect (lines 72-81). -/
structure ConnectKwargs where
  hostname : Option String
  port : Int
  username : Option String
  auth : AuthChoice
deriving DecidableEq

/-- Lines 72-81: hostname, port, username, then key_filename when the key
path is truthy, otherwise password. -/
def connectKwargs (s : SSHState) : ConnectKwargs :=
  { hostname := s.host, port := s.port, username := s.user,
    auth :=
      if pyTruthy s.key_path then AuthChoice.keyFile (s.key_path.getD "")
      else AuthChoice.pw s.password }

/-- SSHClient.connect (lines 67-84): stores a fresh paramiko client and calls
its connect with the built keyword arguments. -/
def connect (s : SSHState) (fresh : Nat) : SSHState × ConnectKwargs :=
  ({ s with client := some fresh }, connectKwargs s)

/-- SSHClient.close (lines 141-145): close and drop the client when present,
do nothing otherwise. -/
def close (s : SSHState) : SSHState :=
  match s.client with
  | some _ => { s with client := none }
  | none => s

/-- The `if not self._client: self.connect()` guard shared by run (lines
88-89) and interactive_shell (lines 101-102). -/
def ensureConnected (s : SSHState) (fresh : Nat) : SSHState :=
  match s.client with
  | none => (connect s fresh).1
  | some _ => s

/-- Lines 95-97: the string run returns, given the decoded stdout and stderr
texts of the remote command. -/
def runResult (output errors : String) : String :=
  if errors != "" then pyStrip (output ++ "\n" ++ errors) else pyStrip output

/-- SSHClient.run (lines 86-97): reconnect when no client is held, then
produce the merged output string. The remote streams are inputs here. -/
def runCmd (s : SSHState) (fresh : Nat) (output errors : String) :
    SSHState × String :=
  let s1 := ensureConnected s fresh
  (s1, runResult output errors)

/-- What one local input line makes the interactive loop do. -/
inductive ShellStep where
  | terminated
  | forwarded (line : String)
deriving DecidableEq

/-- Lines 121-124: a line whose stripped, lowered text is exit ends the loop
without being sent; any other line is sent to the channel unchanged. -/
def shellInputStep (cmd : String) : ShellStep :=
  if pyLower (pyStrip cmd) = "exit" then ShellStep.terminated
  else ShellStep.forwarded cmd

/-- Lines 101-102: interactive_shell also reconnects first when needed. -/
def interactiveShellInit (s : SSHState) (fresh : Nat) : SSHState :=
  match s.client with
  | none => (connect s fresh).1
  | some _ => s

/-- Constructor call with every argument left at its None default. -/
def noOverrides : InitArgs :=
  ⟨none, none, none, none, none, none⟩

/-- The settings-file entries that get loaded: the explicit file when given,
otherwise the first .env of the directory walk, otherwise nothing. -/
def foundEntries (a : InitArgs) (cwdChain : List Dir) : List (String × String) :=
  match a.env_file with
  | some entries => entries
  | none => (findDotenv cwdChain).getD []

/-- Constructor arguments supplying both a password and a key path. -/
def c3args : InitArgs :=
  ⟨some "h", some "u", some "p", some "/k", none, some []⟩

/-- The state the constructor builds from c3args. -/
def c3state : SSHState :=
  ⟨some "h", some "u", some "p", some "/k", 22, none⟩

/-! ### Helper lemmas -/

theorem envGet_append (e₁ e₂ : Env) (k : String) :
    envGet (e₁ ++ e₂) k = (envGet e₁ k).orElse (fun _ => envGet e₂ k) := by
  induction e₁ with
  | nil => simp [envGet, Option.orElse]
  | cons kv rest ih =>
    obtain ⟨k₁, v₁⟩ := kv
    by_cases h : k₁ = k
    · simp [envGet, h, Option.orElse]
    · simp [envGet, h, ih, Option.orElse]

theorem loadDotenv_preserves (f : List (String × String)) (e : Env) (k v : String)
    (h : envGet e k = some v) : envGet (loadDotenv f e) k = some v := by
  induction f generalizing e with
  | nil => simpa [loadDotenv] using h
  | cons kv rest ih =>
    simp only [loadDotenv]
    split
    · exact ih _ h
    · exact ih _ (by rw [envGet_append, h]; rfl)

theorem loadDotenv_absent (f : List (String × String)) (e : Env) (k : String)
    (h : envGet e k = none) : envGet (loadDotenv f e) k = envGet f k := by
  induction f generalizing e with
  | nil => simp [loadDotenv, envGet, h]
  | cons kv rest ih =>
    obtain ⟨k₁, v₁⟩ := kv
    by_cases hk : k₁ = k
    · subst hk
      have hs : (envGet e k₁).isSome = false := by rw [h]; rfl
      have h2 : envGet (e ++ [(k₁, v₁)]) k₁ = some v₁ := by
        rw [envGet_append, h]; simp [envGet]
      simp only [loadDotenv, hs, Bool.false_eq_true, if_false]
      rw [loadDotenv_preserves rest _ _ _ h2]
      simp [envGet]
    · by_cases hs : (envGet e k₁).isSome
      · simp only [loadDotenv, hs, if_true]
        rw [ih e h]
        simp [envGet, hk]
      · simp only [loadDotenv, hs, Bool.false_eq_true, if_false]
        have h2 : envGet (e ++ [(k₁, v₁)]) k = none := by
          rw [envGet_append, h]; simp [envGet, hk]
        rw [ih _ h2]
        simp [envGet, hk]

theorem loadedEnv_eq (a : InitArgs) (cwdChain : List Dir) (env : Env) :
    loadedEnv a cwdChain env = loadDotenv (foundEntries a cwdChain) env := by
  unfold loadedEnv foundEntries
  cases a.env_file with
  | some f => rfl
  | none =>
    cases findDotenv cwdChain with
    | some f => rfl
    | none => rfl

theorem loadedEnv_preserves (a : InitArgs) (cwdChain : List Dir) (env : Env)
    (k v : String) (h : envGet env k = some v) :
    envGet (loadedEnv a cwdChain env) k = some v := by
  rw [loadedEnv_eq]
  exact loadDotenv_preserves _ _ _ _ h

theorem sshInit_env (a : InitArgs) (cwdChain : List Dir) (env : Env) (home : String) :
    (sshInit a cwdChain env home).2 = loadedEnv a cwdChain env := by
  unfold sshInit
  cases hp : resolvePort a.port (loadedEnv a cwdChain env) with
  | error e => simp [hp]
  | ok p =>
    simp only [hp]
    split
    · rfl
    · split
      · rfl
      · split <;> rfl

theorem dropWhile_spaces_decomp (p : Char → Bool) (l : List Char) :
    ∃ a, l = a ++ l.dropWhile p ∧ ∀ c ∈ a, p c = true := by
  refine ⟨l.takeWhile p, ?_, ?_⟩
  · rw [List.takeWhile_append_dropWhile]
  · intro c hc
    exact List.mem_takeWhile_imp hc

theorem stripChars_decomp (l : List Char) :
    ∃ a b, l = a ++ stripChars l ++ b ∧ (∀ c ∈ a, isPySpace c = true) ∧
      (∀ c ∈ b, isPySpace c = true) := by
  obtain ⟨a, ha, hpa⟩ := dropWhile_spaces_decomp isPySpace l
  obtain ⟨a2, ha2, hpa2⟩ :=
    dropWhile_spaces_decomp isPySpace (l.dropWhile isPySpace).reverse
  have hm : l.dropWhile isPySpace = stripChars l ++ a2.reverse := by
    have hrev := congrArg List.reverse ha2
    rwa [List.reverse_reverse, List.reverse_append] at hrev
  refine ⟨a, a2.reverse, ?_, hpa, ?_⟩
  · conv_lhs => rw [ha, hm]
    rw [List.append_assoc]
  · intro c hc
    exact hpa2 c (List.mem_reverse.mp hc)

/-! ### Claim theorems -/

/-- Claim C1 counterexample: with no override, a .env settings file holding
SSH_HOST=filehost and a process environment already holding SSH_HOST=envhost,
the resolver yields envhost; the claim requires the settings-file value
filehost to win over the environment. -/
theorem c1_counterexample :
    (sshInit noOverrides
        [⟨true, [("SSH_HOST", "filehost"), ("SSH_USER", "u"), ("SSH_PASSWORD", "p")]⟩]
        [("SSH_HOST", "envhost")] "/home/u").1 =
      Except.ok ⟨some "envhost", some "u", some "p", none, 22, none⟩ ∧
    (some "envhost" : Option String) ≠ some "filehost" :=
  ⟨rfl, by decide⟩

/-- Claim C1 (amended): per field, the explicit override wins when truthy;
otherwise a variable already present in the process environment wins over the
settings file, because load_dotenv does not override existing variables; the
settings-file value is consulted only for a variable that was absent. -/
theorem c1_field_resolution (ov : Option String) (key : String)
    (f : List (String × String)) (env : Env) :
    (pyTruthy ov = true → resolveField ov key (loadDotenv f env) = ov) ∧
    (pyTruthy ov = false → ∀ v, envGet env key = some v →
      resolveField ov key (loadDotenv f env) = some v) ∧
    (pyTruthy ov = false → envGet env key = none →
      resolveField ov key (loadDotenv f env) = envGet f key) := by
  refine ⟨?_, ?_, ?_⟩
  · intro h
    simp [resolveField, pyOr, h]
  · intro h v hv
    simp [resolveField, pyOr, h, loadDotenv_preserves f env key v hv]
  · intro h hv
    simp [resolveField, pyOr, h, loadDotenv_absent f env key hv]

theorem c1_field_resolution_witness :
    resolveField (some "o") "SSH_HOST"
        (loadDotenv [("SSH_HOST", "f")] [("SSH_HOST", "e")]) = some "o" ∧
    resolveField none "SSH_HOST"
        (loadDotenv [("SSH_HOST", "f")] [("SSH_HOST", "e")]) = some "e" ∧
    resolveField none "SSH_HOST" (loadDotenv [("SSH_HOST", "f")] []) =
      envGet [("SSH_HOST", "f")] "SSH_HOST" :=
  ⟨(c1_field_resolution (some "o") "SSH_HOST" [("SSH_HOST", "f")] [("SSH_HOST", "e")]).1
      (by decide),
   (c1_field_resolution none "SSH_HOST" [("SSH_HOST", "f")] [("SSH_HOST", "e")]).2.1
      (by decide) "e" (by decide),
   (c1_field_resolution none "SSH_HOST" [("SSH_HOST", "f")] []).2.2
      (by decide) (by decide)⟩

/-- Claim C2 counterexample: with empty stderr and stdout equal to two spaces
followed by hello, run returns hello: the leading spaces are removed as well,
while the claim allows only trailing whitespace to be removed. -/
theorem c2_counterexample :
    runResult "  hello" "" = "hello" ∧ "hello" ≠ "  hello" :=
  ⟨rfl, by decide⟩

/-- Claim C2 (amended): with empty stderr, run returns stdout trimmed of
leading AND trailing whitespace; with nonempty stderr it returns stdout, a
newline, then stderr, the concatenation trimmed of leading and trailing
whitespace; nothing except whitespace at the two ends is removed. -/
theorem c2_run_result (output errors : String) :
    (errors = "" → runResult output errors = pyStrip output) ∧
    (errors ≠ "" → runResult output errors = pyStrip (output ++ "\n" ++ errors)) ∧
    (∃ a b : List Char,
      (if errors = "" then output else output ++ "\n" ++ errors).data
          = a ++ (runResult output errors).data ++ b
        ∧ (∀ c ∈ a, isPySpace c = true) ∧ (∀ c ∈ b, isPySpace c = true)) := by
  by_cases he : errors = ""
  · subst he
    have hr : runResult output "" = pyStrip output := by
      simp [runResult]
    refine ⟨fun _ => hr, fun h => absurd rfl h, ?_⟩
    rw [if_pos rfl, hr]
    exact stripChars_decomp output.data
  · have hb : (errors != "") = true := bne_iff_ne.mpr he
    have hr : runResult output errors = pyStrip (output ++ "\n" ++ errors) := by
      unfold runResult
      rw [if_pos hb]
    refine ⟨fun h => absurd h he, fun _ => hr, ?_⟩
    rw [if_neg he, hr]
    exact stripChars_decomp (output ++ "\n" ++ errors).data

theorem c2_run_result_witness :
    runResult " a " "" = pyStrip " a " ∧
    runResult " a " "b" = pyStrip (" a " ++ "\n" ++ "b") :=
  ⟨(c2_run_result " a " "").1 rfl, (c2_run_result " a " "b").2.1 (by decide)⟩

/-- Claim C3 counterexample: resolving with both a password and a key path
supplied leaves BOTH present on the resulting state, violating the claimed
invariant that exactly one of them is present after resolution. -/
theorem c3_counterexample :
    (sshInit c3args [] [] "/home/u").1 = Except.ok c3state ∧
    c3state.password.isSome = true ∧ c3state.key_path.isSome = true :=
  ⟨rfl, rfl, rfl⟩

/-- Claim C3 (amended): after resolution both password and key path may be
present; the connect operation prefers the key path: when the key path is
truthy the keyword arguments carry key_filename and no password at all, and
only when it is not do they carry the password. -/
theorem c3_connect_prefers_key (s : SSHState) (fresh : Nat) :
    (pyTruthy s.key_path = true →
      (connect s fresh).2.auth = AuthChoice.keyFile (s.key_path.getD "")) ∧
    (pyTruthy s.key_path = false →
      (connect s fresh).2.auth = AuthChoice.pw s.password) := by
  constructor <;> intro h <;> simp [connect, connectKwargs, h]

theorem c3_connect_prefers_key_witness :
    (connect c3state 0).2.auth = AuthChoice.keyFile (c3state.key_path.getD "") :=
  (c3_connect_prefers_key c3state 0).1 (by decide)

/-- Claim C4 counterexample: starting from an empty process environment, with
a .env holding SSH_HOST=h in the current directory, resolution leaves the
environment holding SSH_HOST=h, so the environment after resolution differs
from the environment before it. -/
theorem c4_counterexample :
    (sshInit noOverrides [⟨true, [("SSH_HOST", "h")]⟩] [] "/home/u").2 =
      [("SSH_HOST", "h")] ∧
    ([("SSH_HOST", "h")] : Env) ≠ ([] : Env) :=
  ⟨rfl, by decide⟩

/-- Claim C4 (amended): resolution reads the settings file and the process
environment and writes no file, but it DOES mutate the process environment:
the environment it leaves is exactly the starting one extended, via load_dotenv,
by the loaded file entries whose keys were absent; a variable already present
keeps its value, and a variable that was absent afterwards holds the first
settings-file value for its key, if any. -/
theorem c4_env_mutation (a : InitArgs) (cwdChain : List Dir) (env : Env)
    (home : String) :
    (sshInit a cwdChain env home).2 = loadDotenv (foundEntries a cwdChain) env ∧
    (∀ k v, envGet env k = some v →
      envGet ((sshInit a cwdChain env home).2) k = some v) ∧
    (∀ k, envGet env k = none →
      envGet ((sshInit a cwdChain env home).2) k =
        envGet (foundEntries a cwdChain) k) := by
  refine ⟨?_, ?_, ?_⟩
  · rw [sshInit_env, loadedEnv_eq]
  · intro k v h
    rw [sshInit_env]
    exact loadedEnv_preserves _ _ _ _ _ h
  · intro k h
    rw [sshInit_env, loadedEnv_eq]
    exact loadDotenv_absent _ _ _ h

theorem c4_env_mutation_witness :
    envGet ((sshInit noOverrides [⟨true, [("SSH_HOST", "h"), ("SSH_USER", "u")]⟩]
        [("SSH_HOST", "e")] "/h").2) "SSH_HOST" = some "e" ∧
    envGet ((sshInit noOverrides [⟨true, [("SSH_HOST", "h"), ("SSH_USER", "u")]⟩]
        [("SSH_HOST", "e")] "/h").2) "SSH_USER" =
      envGet (foundEntries noOverrides [⟨true, [("SSH_HOST", "h"), ("SSH_USER", "u")]⟩])
        "SSH_USER" :=
  ⟨(c4_env_mutation noOverrides [⟨true, [("SSH_HOST", "h"), ("SSH_USER", "u")]⟩]
      [("SSH_HOST", "e")] "/h").2.1 "SSH_HOST" "e" rfl,
   (c4_env_mutation noOverrides [⟨true, [("SSH_HOST", "h"), ("SSH_USER", "u")]⟩]
      [("SSH_HOST", "e")] "/h").2.2 "SSH_USER" rfl⟩

/-- Claim C5 (confirmed): an input line terminates the interactive loop
exactly when its stripped, lowercased text is exit, and such a line is not
forwarded; every other line is forwarded to the channel unmodified, its
trailing newline included. -/
theorem c5_exit_detection (cmd : String) :
    (shellInputStep cmd = ShellStep.terminated ↔ pyLower (pyStrip cmd) = "exit") ∧
    (pyLower (pyStrip cmd) ≠ "exit" → shellInputStep cmd = ShellStep.forwarded cmd) := by
  unfold shellInputStep
  by_cases h : pyLower (pyStrip cmd) = "exit" <;> simp [h]

theorem c5_exit_detection_witness :
    shellInputStep " Exit \n" = ShellStep.terminated ∧
    shellInputStep "EXIT\n" = ShellStep.terminated ∧
    shellInputStep "ls -la\n" = ShellStep.forwarded "ls -la\n" :=
  ⟨(c5_exit_detection " Exit \n").1.mpr (by decide),
   (c5_exit_detection "EXIT\n").1.mpr (by decide),
   (c5_exit_detection "ls -la\n").2 (by decide)⟩

/-- Claim C6 counterexample: the string -1 does not parse as an unsigned
integer, yet port resolution does not fail: it succeeds with port -1 instead
of raising a configuration error. -/
theorem c6_counterexample :
    specUnsignedIntParse "-1" = none ∧
    resolvePort none [("SSH_PORT", "-1")] = Except.ok (-1) :=
  ⟨rfl, rfl⟩

/-- Claim C6 (amended): when no port value resolves from any source the port
defaults to 22; a value that resolves but does not parse as a Python base-10
integer literal makes resolution fail with the int ValueError, never the
silent default; a value that parses as an integer, signed values included, is
used as parsed. -/
theorem c6_port_resolution (env1 : Env) (s : String) :
    (envGet env1 "SSH_PORT" = none → resolvePort none env1 = Except.ok 22) ∧
    (envGet env1 "SSH_PORT" = some s → pythonInt s = none →
      resolvePort none env1 = Except.error (portErrMsg s)) ∧
    (∀ n : Int, envGet env1 "SSH_PORT" = some s → pythonInt s = some n →
      resolvePort none env1 = Except.ok n) := by
  refine ⟨?_, ?_, ?_⟩
  · intro h
    simp only [resolvePort, parsePortEnv, h]
    rfl
  · intro h hp
    simp [resolvePort, parsePortEnv, h, hp]
  · intro n h hp
    simp [resolvePort, parsePortEnv, h, hp]

theorem c6_port_resolution_witness :
    resolvePort none [] = Except.ok 22 ∧
    resolvePort none [("SSH_PORT", "abc")] = Except.error (portErrMsg "abc") ∧
    resolvePort none [("SSH_PORT", "-5")] = Except.ok (-5) :=
  ⟨(c6_port_resolution [] "").1 rfl,
   (c6_port_resolution [("SSH_PORT", "abc")] "abc").2.1 rfl rfl,
   (c6_port_resolution [("SSH_PORT", "-5")] "-5").2.2 (-5) rfl rfl⟩

/-- Claim C7 (confirmed): once the port parses, a falsy resolved host, a falsy
resolved user, and falsy resolved password and key path each make the
constructor raise, and the three ValueError messages are pairwise distinct,
each naming the missing field. -/
theorem c7_validation_errors (a : InitArgs) (cwdChain : List Dir) (env : Env)
    (home : String) (env1 : Env) (henv : env1 = loadedEnv a cwdChain env)
    (p : Int) (hp : resolvePort a.port env1 = Except.ok p) :
    (pyTruthy (resolveField a.host "SSH_HOST" env1) = false →
      (sshInit a cwdChain env home).1 = Except.error hostErrMsg) ∧
    (pyTruthy (resolveField a.host "SSH_HOST" env1) = true →
      pyTruthy (resolveField a.user "SSH_USER" env1) = false →
      (sshInit a cwdChain env home).1 = Except.error userErrMsg) ∧
    (pyTruthy (resolveField a.host "SSH_HOST" env1) = true →
      pyTruthy (resolveField a.user "SSH_USER" env1) = true →
      pyTruthy (resolveField a.password "SSH_PASSWORD" env1) = false →
      pyTruthy (resolveField a.key_path "SSH_KEY_PATH" env1) = false →
      (sshInit a cwdChain env home).1 = Except.error authErrMsg) ∧
    (hostErrMsg ≠ userErrMsg ∧ hostErrMsg ≠ authErrMsg ∧ userErrMsg ≠ authErrMsg) := by
  subst henv
  refine ⟨?_, ?_, ?_, by decide, by decide, by decide⟩
  · intro h1
    simp [sshInit, hp, h1]
  · intro h1 h2
    simp [sshInit, hp, h1, h2]
  · intro h1 h2 h3 h4
    simp [sshInit, hp, h1, h2, h3, h4]

theorem c7_validation_errors_witness :
    (sshInit noOverrides [] [] "/h").1 = Except.error hostErrMsg ∧
    (sshInit ⟨some "h", none, none, none, none, some []⟩ [] [] "/h").1 =
      Except.error userErrMsg ∧
    (sshInit ⟨some "h", some "u", none, none, none, some []⟩ [] [] "/h").1 =
      Except.error authErrMsg ∧
    hostErrMsg ≠ userErrMsg ∧ hostErrMsg ≠ authErrMsg ∧ userErrMsg ≠ authErrMsg :=
  ⟨(c7_validation_errors noOverrides [] [] "/h" [] rfl 22 rfl).1 rfl,
   (c7_validation_errors ⟨some "h", none, none, none, none, some []⟩ [] [] "/h"
      [] rfl 22 rfl).2.1 rfl rfl,
   (c7_validation_errors ⟨some "h", some "u", none, none, none, some []⟩ [] [] "/h"
      [] rfl 22 rfl).2.2.1 rfl rfl rfl rfl,
   (c7_validation_errors noOverrides [] [] "/h" [] rfl 22 rfl).2.2.2⟩

/-- Claim C8 (confirmed): with the process environment free of the five SSH
variables, a .env in the current working directory holding SSH_HOST=h,
SSH_USER=u and SSH_KEY_PATH tilde slash .ssh slash id_rsa, and the
constructor called with no overrides and no explicit file path, the resolved
state has host h, user u, no password, key path equal to the home-directory
expansion of the tilde path, and port 22. -/
theorem c8_concrete_scenario (env : Env) (rest : List Dir) (home : String)
    (h1 : envGet env "SSH_HOST" = none) (h2 : envGet env "SSH_USER" = none)
    (h3 : envGet env "SSH_PASSWORD" = none) (h4 : envGet env "SSH_KEY_PATH" = none)
    (h5 : envGet env "SSH_PORT" = none) :
    (sshInit noOverrides
        (⟨true, [("SSH_HOST", "h"), ("SSH_USER", "u"),
                 ("SSH_KEY_PATH", "~/.ssh/id_rsa")]⟩ :: rest)
        env home).1 =
      Except.ok ⟨some "h", some "u", none, some (home ++ "/.ssh/id_rsa"), 22, none⟩ := by
  have henv : loadedEnv noOverrides
      (⟨true, [("SSH_HOST", "h"), ("SSH_USER", "u"),
               ("SSH_KEY_PATH", "~/.ssh/id_rsa")]⟩ :: rest) env =
      loadDotenv [("SSH_HOST", "h"), ("SSH_USER", "u"),
                  ("SSH_KEY_PATH", "~/.ssh/id_rsa")] env := by
    rfl
  have e1 : envGet (loadDotenv [("SSH_HOST", "h"), ("SSH_USER", "u"),
      ("SSH_KEY_PATH", "~/.ssh/id_rsa")] env) "SSH_HOST" = some "h" := by
    rw [loadDotenv_absent _ _ _ h1]; rfl
  have e2 : envGet (loadDotenv [("SSH_HOST", "h"), ("SSH_USER", "u"),
      ("SSH_KEY_PATH", "~/.ssh/id_rsa")] env) "SSH_USER" = some "u" := by
    rw [loadDotenv_absent _ _ _ h2]; rfl
  have e3 : envGet (loadDotenv [("SSH_HOST", "h"), ("SSH_USER", "u"),
      ("SSH_KEY_PATH", "~/.ssh/id_rsa")] env) "SSH_PASSWORD" = none := by
    rw [loadDotenv_absent _ _ _ h3]; rfl
  have e4 : envGet (loadDotenv [("SSH_HOST", "h"), ("SSH_USER", "u"),
      ("SSH_KEY_PATH", "~/.ssh/id_rsa")] env) "SSH_KEY_PATH" = some "~/.ssh/id_rsa" := by
    rw [loadDotenv_absent _ _ _ h4]; rfl
  have e5 : envGet (loadDotenv [("SSH_HOST", "h"), ("SSH_USER", "u"),
      ("SSH_KEY_PATH", "~/.ssh/id_rsa")] env) "SSH_PORT" = none := by
    rw [loadDotenv_absent _ _ _ h5]; rfl
  unfold sshInit
  rw [henv]
  simp only [noOverrides, resolveField, pyOr, pyTruthy, resolvePort,
    parsePortEnv, e1, e2, e3, e4, e5]
  rfl

theorem c8_concrete_scenario_witness :
    (sshInit noOverrides
        [⟨true, [("SSH_HOST", "h"), ("SSH_USER", "u"),
                 ("SSH_KEY_PATH", "~/.ssh/id_rsa")]⟩]
        [] "/home/me").1 =
      Except.ok ⟨some "h", some "u", none, some ("/home/me" ++ "/.ssh/id_rsa"),
                 22, none⟩ :=
  c8_concrete_scenario [] [] "/home/me" rfl rfl rfl rfl rfl

/-- Claim C9 (confirmed): close is total on the session state and idempotent:
closing twice equals closing once, a closed state holds no client, and close
on a state that holds no client, never opened or already closed, returns it
unchanged. -/
theorem c9_close_idempotent (s : SSHState) :
    close (close s) = close s ∧ (close s).client = none ∧
    (s.client = none → close s = s) := by
  refine ⟨?_, ?_, ?_⟩
  · cases h : s.client <;> simp [close, h]
  · cases h : s.client <;> simp [close, h]
  · intro hc
    simp [close, hc]

theorem c9_close_idempotent_witness :
    close (close ⟨some "h", some "u", some "p", none, 22, none⟩) =
      close ⟨some "h", some "u", some "p", none, 22, none⟩ ∧
    close ⟨some "h", some "u", some "p", none, 22, none⟩ =
      ⟨some "h", some "u", some "p", none, 22, none⟩ :=
  ⟨(c9_close_idempotent ⟨some "h", some "u", some "p", none, 22, none⟩).1,
   (c9_close_idempotent ⟨some "h", some "u", some "p", none, 22, none⟩).2.2 rfl⟩

/-- Claim C10 (confirmed): run and interactive_shell first reconnect whenever
no client is held, whether connect was never called or close dropped the
client, so a client is always held when the remote work begins; in particular
running after close holds the fresh client. -/
theorem c10_reconnect (s : SSHState) (fresh : Nat) (output errors : String) :
    ((runCmd s fresh output errors).1.client.isSome = true) ∧
    ((interactiveShellInit s fresh).client.isSome = true) ∧
    (s.client = none → ensureConnected s fresh = (connect s fresh).1) ∧
    ((runCmd (close s) fresh output errors).1.client = some fresh) := by
  refine ⟨?_, ?_, ?_, ?_⟩
  · cases h : s.client <;> simp [runCmd, ensureConnected, connect, h]
  · cases h : s.client <;> simp [interactiveShellInit, connect, h]
  · intro h
    simp [ensureConnected, h]
  · cases h : s.client <;> simp [runCmd, ensureConnected, close, connect, h]

theorem c10_reconnect_witness :
    ((runCmd ⟨some "h", some "u", none, some "/k", 22, none⟩ 7 "o" "e").1.client.isSome
      = true) ∧
    ensureConnected ⟨some "h", some "u", none, some "/k", 22, none⟩ 7 =
      (connect ⟨some "h", some "u", none, some "/k", 22, none⟩ 7).1 :=
  ⟨(c10_reconnect ⟨some "h", some "u", none, some "/k", 22, none⟩ 7 "o" "e").1,
   (c10_reconnect ⟨some "h", some "u", none, some "/k", 22, none⟩ 7 "o" "e").2.2.1 rfl⟩

end SSHConnect
